import Mathlib

/-!
Verification of the manifest-extraction core of `codegen-v2` (file
`src/codegen-v2/src/manifest.rs`): the per-header declaration scan
`process_c_header_dir` and the helper `extract_custom`, together with the
data model (`TypeInfo`, `FileInfo`, `StructInfo`, `EnumInfo`, `MethodInfo`,
…).

The grammar types (`GHeaderFileItem`, `GType`, `GTypeCategory`, `GMarker`)
and the `from_g_type` declaration converters live in modules of the crate
that are not part of the provided source; they are modelled from the
specification (each such definition carries a doc comment starting with
`Modelled from the spec:`).  Everything else is a direct shallow embedding
of the Rust source.

The Rust code calls `.unwrap()` on every converter result; a converter
error therefore panics.  We model panics by making the scan return an
`Option`: `none` is a panic, `some fi` is a completed scan producing the
manifest `fi`.
-/

namespace Manifest

/-- Error taxonomy of the manifest module (Rust `enum Error`). -/
inductive Error where
  | BadImport
  | BadObject
  | BadProperty
  | BadType
deriving Repr, DecidableEq

/-- The closed set of canonical type kinds (Rust `enum TypeVariant`). -/
inductive TypeVariant where
  | Void
  | Bool
  | Int8
  | Int16
  | Int32
  | Int64
  | Uint8
  | Uint16
  | Uint32
  | Uint64
  | Float32
  | Float64
  | Struct (name : String)
  | Enum (name : String)
deriving Repr, DecidableEq

/-- Canonical description of one type occurrence (Rust `struct TypeInfo`). -/
structure TypeInfo where
  variant : TypeVariant
  is_constant : Bool
  is_nullable : Bool
  is_pointer : Bool
deriving Repr, DecidableEq

/-- Rust `struct ImportInfo`: a header path as ordered segments. -/
structure ImportInfo where
  path : List String
deriving Repr, DecidableEq

/-- Rust `struct EnumInfo`. -/
structure EnumInfo where
  name : String
  is_public : Bool
  variants : List (String × Option Nat)
  tags : List String
deriving Repr, DecidableEq

/-- Rust `struct StructInfo`. -/
structure StructInfo where
  name : String
  is_public : Bool
  fields : List (String × TypeInfo)
  tags : List String
deriving Repr, DecidableEq

/-- Rust `struct PropertyInfo`. -/
structure PropertyInfo where
  name : String
  is_public : Bool
  is_static : Bool
  return_type : TypeInfo
  comments : List String
deriving Repr, DecidableEq

/-- Rust `struct ParamInfo`. -/
structure ParamInfo where
  name : String
  ty : TypeInfo
deriving Repr, DecidableEq

/-- Rust `struct MethodInfo`. -/
structure MethodInfo where
  name : String
  is_public : Bool
  is_static : Bool
  params : List ParamInfo
  return_type : TypeInfo
  comments : List String
deriving Repr, DecidableEq

/-- Rust `struct FileInfo`: the manifest of one header. -/
structure FileInfo where
  name : String
  imports : List ImportInfo
  structs : List StructInfo
  enums : List EnumInfo
  functions : List MethodInfo
  properties : List PropertyInfo
deriving Repr, DecidableEq

/-! ## Grammar model

The grammar module is an external collaborator of the core under
verification; its shape is reconstructed from the spec (sections 3, 4.1, 6
and 9) and from how `manifest.rs` consumes it. -/

/-- Modelled from the spec: `GKeyword`, a raw identifier token from the
parser (a newtype over the source text; `manifest.rs` reads it as `.0`). -/
structure GKeyword where
  raw : String
deriving Repr, DecidableEq

/-- Modelled from the spec: a struct name token (newtype over `GKeyword`;
`manifest.rs` reads `decl.name.0.0`). -/
structure GStructName where
  kw : GKeyword
deriving Repr, DecidableEq

/-- Modelled from the spec: the markers recognized by the pipeline.  At
least the plain export-method and the export-static-method markers must be
recognized (spec section 6); other markers are carried opaquely. -/
inductive GMarker where
  | TwExportMethod
  | TwExportStaticMethod
  | TwOther (tag : String)
deriving Repr, DecidableEq

/-- Modelled from the spec: the marker list attached to a declaration
(`manifest.rs` reads `decl.markers.0.contains(..)`). -/
structure GMarkers where
  ms : List GMarker
deriving Repr, DecidableEq

/-- Modelled from the spec: the recognized primitive type keywords, mapping
one-to-one onto the scalar `TypeVariant`s (spec section 4.1). -/
inductive GPrimitive where
  | void
  | bool
  | int8
  | int16
  | int32
  | int64
  | uint8
  | uint16
  | uint32
  | uint64
  | float32
  | float64
deriving Repr, DecidableEq

/-- Modelled from the spec: a raw type category — a recognized primitive
keyword, an explicit pointer-to form, an explicitly-nullable form, an
arbitrary unrecognized identifier, or an empty/malformed category (the
spec's section 4.1 failure example: a category that cannot be mapped at
all). -/
inductive GTypeCategory where
  | Scalar (p : GPrimitive)
  | Pointer (inner : GTypeCategory)
  | Nullable (inner : GTypeCategory)
  | Unrecognized (keyword : GKeyword)
  | Malformed
deriving Repr, DecidableEq

/-- The raw qualified type expression: a type category wrapped in exactly
one of three qualifier forms (Rust `enum GType`; the three constructors are
exactly the arms matched by `extract_custom` in `manifest.rs`). -/
inductive GType where
  | Mutable (cat : GTypeCategory)
  | Const (cat : GTypeCategory)
  | Extern (cat : GTypeCategory)
deriving Repr, DecidableEq

/-- Modelled from the spec: a function parameter — a name and a raw
qualified type. -/
structure GParam where
  name : GKeyword
  ty : GType
deriving Repr, DecidableEq

/-- Modelled from the spec: a struct forward indicator, a name-only
declaration (`manifest.rs` reads `decl.name.0.0`). -/
structure GStructInd where
  name : GStructName
deriving Repr, DecidableEq

/-- Modelled from the spec: a full struct definition — name, ordered
fields with raw types, and declaration-level tags. -/
structure GStructDecl where
  name : GStructName
  fields : List (GKeyword × GType)
  tags : List String
deriving Repr, DecidableEq

/-- Modelled from the spec: an enum definition — name and ordered variants,
each a name with an optional explicit discriminant. -/
structure GEnumDecl where
  name : GKeyword
  variants : List (GKeyword × Option Nat)
  tags : List String
deriving Repr, DecidableEq

/-- Modelled from the spec: a function declaration — name, markers, ordered
parameters, return type and attached documentation comments (`manifest.rs`
reads `decl.name.0` and `decl.markers.0`). -/
structure GFunctionDecl where
  name : GKeyword
  markers : GMarkers
  params : List GParam
  ret : GType
  comments : List String
deriving Repr, DecidableEq

/-- One parsed unit of a header (Rust `enum GHeaderFileItem`): the four
forms dispatched by `process_c_header_dir`, plus the open-ended "other"
case that the match's `_ => {}` arm ignores. -/
inductive GHeaderFileItem where
  | StructIndicator (decl : GStructInd)
  | StructDecl (decl : GStructDecl)
  | EnumDecl (decl : GEnumDecl)
  | FunctionDecl (decl : GFunctionDecl)
  | Other (raw : String)
deriving Repr, DecidableEq

/-! ## Type normalizer and declaration converters (spec-modelled) -/

/-- Modelled from the spec: the scalar `TypeVariant` matching a recognized
primitive keyword (section 4.1: "a recognized primitive keyword maps 1:1 to
the matching `TypeVariant` scalar"). -/
def GPrimitive.toVariant : GPrimitive → TypeVariant
  | .void => .Void
  | .bool => .Bool
  | .int8 => .Int8
  | .int16 => .Int16
  | .int32 => .Int32
  | .int64 => .Int64
  | .uint8 => .Uint8
  | .uint16 => .Uint16
  | .uint32 => .Uint32
  | .uint64 => .Uint64
  | .float32 => .Float32
  | .float64 => .Float64

/-- Modelled from the spec: mapping a raw type category to its variant and
shape flags (variant, is_pointer, is_nullable).  A pointer-to form raises
the pointer flag, a nullable form raises the nullable flag, an unrecognized
keyword becomes a named reference (stored as a `Struct` reference: the spec
says only the name must be preserved, the struct/enum disambiguation is
resolved later by the consumer), and a malformed category cannot be mapped
(`BadType`). -/
def normalizeCategory : GTypeCategory → Except Error (TypeVariant × Bool × Bool)
  | .Scalar p => .ok (p.toVariant, false, false)
  | .Pointer inner =>
      match normalizeCategory inner with
      | .ok (v, _, n) => .ok (v, true, n)
      | .error e => .error e
  | .Nullable inner =>
      match normalizeCategory inner with
      | .ok (v, p, _) => .ok (v, p, true)
      | .error e => .error e
  | .Unrecognized kw => .ok (.Struct kw.raw, false, false)
  | .Malformed => .error .BadType

/-- Modelled from the spec: the Type Normalizer `TypeInfo::from_g_type`.
The constant qualifier sets `is_constant`; mutable and extern leave it
false; pointer-ness and nullability come from the category shape. -/
def TypeInfo.from_g_type (ty : GType) : Except Error TypeInfo :=
  match ty with
  | .Mutable cat =>
      match normalizeCategory cat with
      | .ok (v, p, n) => .ok ⟨v, false, n, p⟩
      | .error e => .error e
  | .Const cat =>
      match normalizeCategory cat with
      | .ok (v, p, n) => .ok ⟨v, true, n, p⟩
      | .error e => .error e
  | .Extern cat =>
      match normalizeCategory cat with
      | .ok (v, p, n) => .ok ⟨v, false, n, p⟩
      | .error e => .error e

/-- Modelled from the spec: the Struct converter `StructInfo::from_g_type`.
Copies the name, marks definitions public, normalizes every field type, and
copies tags verbatim; fails with `BadObject` if a field type cannot be
normalized. -/
def StructInfo.from_g_type (decl : GStructDecl) : Except Error StructInfo :=
  match decl.fields.mapM (fun fld =>
      match TypeInfo.from_g_type fld.2 with
      | .ok t => Except.ok (fld.1.raw, t)
      | .error _ => Except.error Error.BadObject) with
  | .ok fields =>
      .ok { name := decl.name.kw.raw, is_public := true, fields := fields,
            tags := decl.tags }
  | .error e => .error e

/-- Modelled from the spec: the Enum converter `EnumInfo::from_g_type`.
Copies the name and each variant's name plus optional explicit
discriminant.  (The spec reserves `BadObject` for malformed variant lists;
in this grammar model every representable variant list is well-formed, so
the converter is total on the model.) -/
def EnumInfo.from_g_type (decl : GEnumDecl) : Except Error EnumInfo :=
  .ok { name := decl.name.raw, is_public := true,
        variants := decl.variants.map fun (n, d) => (n.raw, d),
        tags := decl.tags }

/-- Modelled from the spec: the Param converter — name plus normalized
type; failure bubbles up from the Type Normalizer. -/
def ParamInfo.from_g_parameter (p : GParam) : Except Error ParamInfo :=
  match TypeInfo.from_g_type p.ty with
  | .ok t => .ok { name := p.name.raw, ty := t }
  | .error e => .error e

/-- Modelled from the spec: the Method/Function converter
`MethodInfo::from_g_type`.  Copies the name; the export-static-method
marker yields `is_static = true`; either export marker yields
`is_public = true`; absence of both means the declaration is not
convertible; parameter and return types are normalized; comments are
preserved in order; type failures surface as `BadProperty`.  The owning
file name context is accepted for signature fidelity (the spec names no
concrete use of it in conversion). -/
def MethodInfo.from_g_type (_file_name : Option String) (decl : GFunctionDecl) :
    Except Error MethodInfo :=
  if decl.markers.ms.contains GMarker.TwExportMethod
      ∨ decl.markers.ms.contains GMarker.TwExportStaticMethod then
    match decl.params.mapM (fun p =>
        match ParamInfo.from_g_parameter p with
        | .ok x => Except.ok x
        | .error _ => Except.error Error.BadProperty) with
    | .ok params =>
        match TypeInfo.from_g_type decl.ret with
        | .ok ret =>
            .ok { name := decl.name.raw, is_public := true,
                  is_static := decl.markers.ms.contains GMarker.TwExportStaticMethod,
                  params := params, return_type := ret,
                  comments := decl.comments }
        | .error _ => .error Error.BadProperty
    | .error e => .error e
  else
    .error Error.BadProperty

/-! ## The assembler: `process_c_header_dir`, one header at a time

The Rust loop body for one header: derive the file name from the path
(unwrap-on-failure), start from an empty `FileInfo`, then fold the
declaration list, dispatching each item.  Every `.unwrap()` of the source
is modelled as `Option`: `none` is the panic. -/

/-- Rust substring containment `str::contains` on a literal pattern. -/
def strContains (s pat : String) : Bool :=
  decide (List.IsInfix pat.data s.data)

/-- Rust `str::split` on the one-character separator `"/"`, over the
character sequence: every occurrence splits, empty segments are kept, and
the empty input yields one empty segment.  The result is never empty. -/
def splitOnChar (sep : Char) : List Char → List (List Char)
  | [] => [[]]
  | c :: rest =>
      match splitOnChar sep rest with
      | [] => [[]]
      | seg :: segs =>
          if c = sep then [] :: seg :: segs else (c :: seg) :: segs

/-- The file-name derivation of `process_c_header_dir`:
`path.to_str().unwrap().split("/").last().unwrap().strip_suffix(".h").unwrap()`.
Paths are modelled as strings (already valid UTF-8, so `to_str` cannot
fail); `none` models the panic when the last `/`-segment does not end in
`.h`; `strip_suffix(".h")` keeps everything but the final two
characters. -/
def fileNameOfPath (path : String) : Option String :=
  match (splitOnChar '/' path.data).getLast? with
  | none => none
  | some seg =>
      if List.IsSuffix ".h".data seg then
        some (String.mk (seg.take (seg.length - 2)))
      else none

/-- The initial manifest for a header (`FileInfo` literal in the source):
the derived name and empty collections. -/
def FileInfo.init (file_name : String) : FileInfo :=
  { name := file_name, imports := [], structs := [], enums := [],
    functions := [], properties := [] }

/-- One iteration of the declaration loop of `process_c_header_dir`:
dispatch one item against the accumulated manifest.  `none` models a panic
of one of the `.unwrap()` calls on a converter result. -/
def processItem (file_name : String) (fi : FileInfo) :
    GHeaderFileItem → Option FileInfo
  | .StructIndicator decl =>
      some { fi with structs := fi.structs ++
        [{ name := decl.name.kw.raw, is_public := true, fields := [],
           tags := [] }] }
  | .StructDecl decl =>
      match StructInfo.from_g_type decl with
      | .ok x => some { fi with structs := fi.structs ++ [x] }
      | .error _ => none
  | .EnumDecl decl =>
      match EnumInfo.from_g_type decl with
      | .ok x => some { fi with enums := fi.enums ++ [x] }
      | .error _ => none
  | .FunctionDecl decl =>
      if strContains decl.name.raw "CreateWith" ∨ strContains decl.name.raw "Delete" then
        some fi
      else if decl.markers.ms.contains GMarker.TwExportMethod
          ∨ decl.markers.ms.contains GMarker.TwExportStaticMethod then
        match MethodInfo.from_g_type (some file_name) decl with
        | .ok x => some { fi with functions := fi.functions ++ [x] }
        | .error _ => none
      else
        some fi
  | .Other _ => some fi

/-- The declaration loop of `process_c_header_dir` over one header's item
list. -/
def processItems (file_name : String) (fi : FileInfo) :
    List GHeaderFileItem → Option FileInfo
  | [] => some fi
  | item :: rest =>
      match processItem file_name fi item with
      | some fi' => processItems file_name fi' rest
      | none => none

/-- Extraction of one header of `process_c_header_dir`: derive the file
name from the path, then scan the ordered declarations into a `FileInfo`
(serialization of the finished manifest is outside the model). -/
def processHeader (path : String) (items : List GHeaderFileItem) :
    Option FileInfo :=
  match fileNameOfPath path with
  | some file_name => processItems file_name (FileInfo.init file_name) items
  | none => none

/-- `extract_custom` from `manifest.rs`: the bare identifier of an
unrecognized type category, uniformly through the three qualifier
wrappers. -/
def extract_custom (ty : GType) : Option String :=
  match ty with
  | .Mutable cat | .Const cat | .Extern cat =>
      match cat with
      | .Unrecognized keyword => some keyword.raw
      | _ => none

/-! ## Derived observation functions

These recompute, declaration by declaration, the record that one scan step
appends to each collection; they are the yardstick the loop is proved
against. -/

/-- The struct record (if any) that scanning one item appends to
`structs`. -/
def structRecordOf : GHeaderFileItem → Option StructInfo
  | .StructIndicator decl =>
      some { name := decl.name.kw.raw, is_public := true, fields := [],
             tags := [] }
  | .StructDecl decl => (StructInfo.from_g_type decl).toOption
  | _ => none

/-- The enum record (if any) that scanning one item appends to `enums`. -/
def enumRecordOf : GHeaderFileItem → Option EnumInfo
  | .EnumDecl decl => (EnumInfo.from_g_type decl).toOption
  | _ => none

/-- The method record (if any) that scanning one item appends to
`functions`, after the name-pattern and marker gates. -/
def methodRecordOf (file_name : String) : GHeaderFileItem → Option MethodInfo
  | .FunctionDecl decl =>
      if strContains decl.name.raw "CreateWith" ∨ strContains decl.name.raw "Delete" then
        none
      else if decl.markers.ms.contains GMarker.TwExportMethod
          ∨ decl.markers.ms.contains GMarker.TwExportStaticMethod then
        (MethodInfo.from_g_type (some file_name) decl).toOption
      else
        none
  | _ => none

/-- Whether scanning this item invokes a declaration converter and that
converter returns an error (exactly the situations in which the source's
`.unwrap()` panics). -/
def converterErrors (file_name : String) : GHeaderFileItem → Bool
  | .StructDecl decl =>
      match StructInfo.from_g_type decl with
      | .ok _ => false
      | .error _ => true
  | .EnumDecl decl =>
      match EnumInfo.from_g_type decl with
      | .ok _ => false
      | .error _ => true
  | .FunctionDecl decl =>
      if strContains decl.name.raw "CreateWith" ∨ strContains decl.name.raw "Delete" then
        false
      else if decl.markers.ms.contains GMarker.TwExportMethod
          ∨ decl.markers.ms.contains GMarker.TwExportStaticMethod then
        match MethodInfo.from_g_type (some file_name) decl with
        | .ok _ => false
        | .error _ => true
      else
        false
  | _ => false

/-! ## Sample declarations

Concrete inputs used to exercise the pipeline. -/

/-- A function exported as a static method, with a `Bool` return type. -/
def wStaticFn : GFunctionDecl :=
  { name := ⟨"TWWalletIsValid"⟩, markers := ⟨[.TwExportStaticMethod]⟩,
    params := [], ret := .Mutable (.Scalar .bool), comments := [] }

/-- A function exported as a plain (instance) method. -/
def wPlainFn : GFunctionDecl :=
  { name := ⟨"TWWalletEqual"⟩, markers := ⟨[.TwExportMethod]⟩,
    params := [], ret := .Mutable (.Scalar .bool), comments := [] }

/-- A struct definition with a malformed field type: its conversion
fails. -/
def wBadStruct : GStructDecl :=
  { name := ⟨⟨"BadStruct"⟩⟩, fields := [(⟨"field"⟩, .Mutable .Malformed)],
    tags := [] }

/-- A forward struct indicator. -/
def wFwdInd : GStructInd := { name := ⟨⟨"Wallet"⟩⟩ }

/-- A full struct definition with one well-formed field. -/
def wFullStruct : GStructDecl :=
  { name := ⟨⟨"Wallet"⟩⟩, fields := [(⟨"bytes"⟩, .Const (.Scalar .uint8))],
    tags := ["tag1"] }

/-- An enum definition with the three discriminant states of the spec's
scenario. -/
def wEnum : GEnumDecl :=
  { name := ⟨"TWCoinType"⟩,
    variants := [(⟨"A"⟩, some 0), (⟨"B"⟩, none), (⟨"C"⟩, some 5)],
    tags := [] }

/-- The canonical record of `wStaticFn` after conversion. -/
def wStaticMethod : MethodInfo :=
  { name := "TWWalletIsValid", is_public := true, is_static := true,
    params := [], return_type := ⟨.Bool, false, false, false⟩,
    comments := [] }

/-- A sample header body: a forward indicator, a later full definition of
the same struct, an enum, and an exported static function. -/
def wSampleItems : List GHeaderFileItem :=
  [.StructIndicator wFwdInd, .StructDecl wFullStruct, .EnumDecl wEnum,
   .FunctionDecl wStaticFn]

/-- The manifest the scan produces for `wSampleItems` under file name
`wallet`. -/
def wSampleResult : FileInfo :=
  { name := "wallet", imports := [],
    structs := [⟨"Wallet", true, [], []⟩,
                ⟨"Wallet", true, [("bytes", ⟨.Uint8, true, false, false⟩)],
                 ["tag1"]⟩],
    enums := [⟨"TWCoinType", true,
               [("A", some 0), ("B", none), ("C", some 5)], []⟩],
    functions := [wStaticMethod], properties := [] }

/-! ## Helper lemmas -/

lemma filterMap_cons_toList {α β : Type} (f : α → Option β) (a : α)
    (l : List α) :
    List.filterMap f (a :: l) = (f a).toList ++ List.filterMap f l := by
  cases h : f a <;> simp [List.filterMap_cons, h]

/-- One scan step, characterized: it panics exactly when a converter
errors, and otherwise appends the per-item records to the three touched
collections, leaving everything else unchanged. -/
lemma processItem_eq (file_name : String) (fi : FileInfo)
    (item : GHeaderFileItem) :
    processItem file_name fi item =
      if converterErrors file_name item = true then none
      else some { fi with
        structs := fi.structs ++ (structRecordOf item).toList,
        enums := fi.enums ++ (enumRecordOf item).toList,
        functions := fi.functions ++ (methodRecordOf file_name item).toList } := by
  cases item with
  | StructIndicator decl =>
      simp [processItem, converterErrors, structRecordOf, enumRecordOf,
            methodRecordOf]
  | StructDecl decl =>
      cases hc : StructInfo.from_g_type decl <;>
        simp [processItem, converterErrors, structRecordOf, enumRecordOf,
              methodRecordOf, hc, Except.toOption]
  | EnumDecl decl =>
      cases hc : EnumInfo.from_g_type decl <;>
        simp [processItem, converterErrors, structRecordOf, enumRecordOf,
              methodRecordOf, hc, Except.toOption]
  | FunctionDecl decl =>
      by_cases hname : (strContains decl.name.raw "CreateWith" = true
          ∨ strContains decl.name.raw "Delete" = true)
      · simp [processItem, converterErrors, structRecordOf, enumRecordOf,
              methodRecordOf, hname]
      · by_cases hmark : (GMarker.TwExportMethod ∈ decl.markers.ms
            ∨ GMarker.TwExportStaticMethod ∈ decl.markers.ms)
        · cases hc : MethodInfo.from_g_type (some file_name) decl <;>
            simp [processItem, converterErrors, structRecordOf, enumRecordOf,
                  methodRecordOf, hname, hmark, hc, Except.toOption]
        · simp [processItem, converterErrors, structRecordOf, enumRecordOf,
                methodRecordOf, hname, hmark]
  | Other raw =>
      simp [processItem, converterErrors, structRecordOf, enumRecordOf,
            methodRecordOf]

/-- A completed scan, characterized field by field: the untouched fields
are preserved and the three touched collections receive exactly the
per-item records, in scan order. -/
lemma processItems_some (file_name : String) :
    ∀ (items : List GHeaderFileItem) (fi fi' : FileInfo),
      processItems file_name fi items = some fi' →
      fi'.name = fi.name ∧ fi'.imports = fi.imports ∧
      fi'.properties = fi.properties ∧
      fi'.structs = fi.structs ++ items.filterMap structRecordOf ∧
      fi'.enums = fi.enums ++ items.filterMap enumRecordOf ∧
      fi'.functions = fi.functions ++ items.filterMap (methodRecordOf file_name) := by
  intro items
  induction items with
  | nil =>
      intro fi fi' h
      simp only [processItems, Option.some.injEq] at h
      subst h
      simp
  | cons item rest ih =>
      intro fi fi' h
      simp only [processItems] at h
      rw [processItem_eq] at h
      by_cases hce : converterErrors file_name item = true
      · rw [if_pos hce] at h
        simp at h
      · rw [if_neg hce] at h
        simp only at h
        have H := ih _ _ h
        refine ⟨H.1, H.2.1, H.2.2.1, ?_, ?_, ?_⟩ <;>
          simp only [H.2.2.2.1, H.2.2.2.2.1, H.2.2.2.2.2,
                     filterMap_cons_toList, List.append_assoc]

/-- A successfully converted method's `is_static` flag is exactly the
presence of the export-static-method marker. -/
lemma from_g_type_is_static {fn : Option String} {decl : GFunctionDecl}
    {m : MethodInfo} (h : MethodInfo.from_g_type fn decl = Except.ok m) :
    m.is_static = decl.markers.ms.contains GMarker.TwExportStaticMethod := by
  unfold MethodInfo.from_g_type at h
  split at h
  · split at h
    · split at h
      · simp only [Except.ok.injEq] at h
        subst h
        rfl
      · simp at h
    · simp at h
  · simp at h

/-! ## Claim theorems -/

/-- Claim C1: a function declaration whose name contains `CreateWith` or
`Delete` as a substring contributes no `MethodInfo` to the manifest —
the scan step leaves the manifest unchanged, regardless of which markers
the declaration carries (the name check comes before the marker check). -/
theorem lifecycle_exclusion (file_name : String) (fi : FileInfo)
    (decl : GFunctionDecl)
    (h : strContains decl.name.raw "CreateWith" = true
      ∨ strContains decl.name.raw "Delete" = true) :
    processItem file_name fi (.FunctionDecl decl) = some fi := by
  simp only [processItem]
  rw [if_pos h]

/-- Witness for C1: the factory-named function of the spec's scenario is
dropped even though it carries the static-export marker. -/
theorem lifecycle_exclusion_witness :
    processItem "wallet" (FileInfo.init "wallet")
      (.FunctionDecl { name := ⟨"TWWalletCreateWithData"⟩,
                       markers := ⟨[.TwExportStaticMethod]⟩, params := [],
                       ret := .Mutable (.Scalar .void), comments := [] }) =
      some (FileInfo.init "wallet") :=
  lifecycle_exclusion "wallet" (FileInfo.init "wallet") _ (Or.inl (by decide))

/-- Claim C2: for a function declaration not excluded by the name pattern:
with neither export marker the scan step leaves the manifest unchanged
(the function never appears); with the export-static-method marker every
successful step appends exactly one method whose `is_static` is `true`;
with only the plain export-method marker it appends exactly one method
whose `is_static` is `false`. -/
theorem export_gating (file_name : String) (fi : FileInfo)
    (decl : GFunctionDecl)
    (h1 : strContains decl.name.raw "CreateWith" = false)
    (h2 : strContains decl.name.raw "Delete" = false) :
    (GMarker.TwExportMethod ∉ decl.markers.ms ∧
     GMarker.TwExportStaticMethod ∉ decl.markers.ms →
       processItem file_name fi (.FunctionDecl decl) = some fi) ∧
    (GMarker.TwExportStaticMethod ∈ decl.markers.ms →
       ∀ fi', processItem file_name fi (.FunctionDecl decl) = some fi' →
         fi'.functions.map (fun m => m.is_static) =
           fi.functions.map (fun m => m.is_static) ++ [true]) ∧
    (GMarker.TwExportMethod ∈ decl.markers.ms →
     GMarker.TwExportStaticMethod ∉ decl.markers.ms →
       ∀ fi', processItem file_name fi (.FunctionDecl decl) = some fi' →
         fi'.functions.map (fun m => m.is_static) =
           fi.functions.map (fun m => m.is_static) ++ [false]) := by
  refine ⟨?_, ?_, ?_⟩
  · intro hm
    simp [processItem, h1, h2, hm.1, hm.2]
  · intro hst fi' hstep
    simp only [processItem] at hstep
    rw [if_neg (by simp [h1, h2])] at hstep
    rw [if_pos (by simp [hst])] at hstep
    cases hc : MethodInfo.from_g_type (some file_name) decl with
    | ok m =>
        rw [hc] at hstep
        simp only [Option.some.injEq] at hstep
        subst hstep
        have hs := from_g_type_is_static hc
        simp [hs, hst]
    | error e =>
        rw [hc] at hstep
        simp at hstep
  · intro hpl hst fi' hstep
    simp only [processItem] at hstep
    rw [if_neg (by simp [h1, h2])] at hstep
    rw [if_pos (by simp [hpl])] at hstep
    cases hc : MethodInfo.from_g_type (some file_name) decl with
    | ok m =>
        rw [hc] at hstep
        simp only [Option.some.injEq] at hstep
        subst hstep
        have hs := from_g_type_is_static hc
        simp [hs, hst]
    | error e =>
        rw [hc] at hstep
        simp at hstep

/-- Witness for C2: the static-export sample function is appended with
`is_static = true`. -/
theorem export_gating_witness :
    ({ (FileInfo.init "wallet") with
        functions := [wStaticMethod] } : FileInfo).functions.map
      (fun m => m.is_static) =
      (FileInfo.init "wallet").functions.map (fun m => m.is_static) ++
        [true] :=
  (export_gating "wallet" (FileInfo.init "wallet") wStaticFn (by decide)
      (by decide)).2.1 (by decide)
    { (FileInfo.init "wallet") with functions := [wStaticMethod] }
    (by decide)

/-- Refutation of claim C3 as stated: on the concrete two-declaration
input below, the struct converter errors on the first declaration, and the
scan produces no manifest at all — the remaining declaration is not
processed and nothing is recorded, instead of the declaration being
skipped with the rest of the file still processed. -/
theorem converter_skip_refuted :
    StructInfo.from_g_type wBadStruct = Except.error Error.BadObject ∧
    processItems "wallet" (FileInfo.init "wallet")
      [.StructDecl wBadStruct, .StructIndicator wFwdInd] = none := by
  exact ⟨rfl, rfl⟩

/-- Claim C3 (amended): when a struct, enum, or function converter returns
an error on one declaration, the `.unwrap()` panics: the scan of the file
aborts at that declaration, no manifest is produced, and the remaining
declarations are not processed. -/
theorem converter_error_aborts (file_name : String) (fi : FileInfo)
    (item : GHeaderFileItem) (rest : List GHeaderFileItem)
    (h : converterErrors file_name item = true) :
    processItems file_name fi (item :: rest) = none := by
  simp only [processItems]
  rw [processItem_eq, if_pos h]

/-- Witness for the amended C3: a failing struct conversion aborts the
scan even with further declarations pending. -/
theorem converter_error_aborts_witness :
    processItems "wallet" (FileInfo.init "wallet")
      [.StructDecl wBadStruct, .Other "trailing"] = none :=
  converter_error_aborts "wallet" (FileInfo.init "wallet")
    (.StructDecl wBadStruct) [.Other "trailing"] (by decide)

/-- Claim C4: a struct forward indicator is always recorded: the scan step
appends a `StructInfo` with the indicator's name, `is_public = true`,
empty fields and empty tags, and never filters it out. -/
theorem forward_indicator_recorded (file_name : String) (fi : FileInfo)
    (decl : GStructInd) :
    processItem file_name fi (.StructIndicator decl) =
      some { fi with structs := fi.structs ++
        [{ name := decl.name.kw.raw, is_public := true, fields := [],
           tags := [] }] } := rfl

/-- Claim C5: a declaration node of any other kind is ignored without
error: the scan step returns the manifest unchanged, and the scan of the
remaining declarations continues as if the node were absent. -/
theorem other_items_ignored (file_name : String) (fi : FileInfo)
    (raw : String) (rest : List GHeaderFileItem) :
    processItem file_name fi (.Other raw) = some fi ∧
    processItems file_name fi (.Other raw :: rest) =
      processItems file_name fi rest :=
  ⟨rfl, rfl⟩

/-- Claim C6: when the last `/`-separated segment of the header path ends
in `.h`, the derived file name is that segment with the `.h` suffix
removed, and every manifest produced for that path carries exactly that
name (the derivation is a function of the path). -/
theorem name_derivation (path : String) (seg : List Char)
    (hlast : (splitOnChar '/' path.data).getLast? = some seg)
    (hsuf : List.IsSuffix ".h".data seg) :
    fileNameOfPath path = some (String.mk (seg.take (seg.length - 2))) ∧
    ∀ (items : List GHeaderFileItem) (fi : FileInfo),
      processHeader path items = some fi →
        fi.name = String.mk (seg.take (seg.length - 2)) := by
  have hfn : fileNameOfPath path =
      some (String.mk (seg.take (seg.length - 2))) := by
    unfold fileNameOfPath
    rw [hlast]
    show (if List.IsSuffix ".h".data seg then
        some (String.mk (seg.take (seg.length - 2))) else none) = _
    rw [if_pos hsuf]
  refine ⟨hfn, ?_⟩
  intro items fi h
  unfold processHeader at h
  rw [hfn] at h
  have H := processItems_some (String.mk (seg.take (seg.length - 2))) items
    (FileInfo.init (String.mk (seg.take (seg.length - 2)))) fi h
  rw [H.1]
  rfl

/-- Witness for C6: the name derived from `include/TWString.h`. -/
theorem name_derivation_witness :
    fileNameOfPath "include/TWString.h" =
      some (String.mk ("TWString.h".data.take
        ("TWString.h".data.length - 2))) :=
  (name_derivation "include/TWString.h" "TWString.h".data (by decide)
    (by decide)).1

/-- Claim C7: `extract_custom` is transparent in the qualifier wrapper —
the three wrappers give the same result — and that result is `some k`
exactly when the wrapped category is `Unrecognized` with keyword `k`, and
`none` on every other category. -/
theorem extract_custom_uniform (cat : GTypeCategory) :
    extract_custom (GType.Const cat) = extract_custom (GType.Mutable cat) ∧
    extract_custom (GType.Extern cat) = extract_custom (GType.Mutable cat) ∧
    (∀ s : String, extract_custom (GType.Mutable cat) = some s ↔
      cat = GTypeCategory.Unrecognized ⟨s⟩) ∧
    ((∀ kw : GKeyword, cat ≠ GTypeCategory.Unrecognized kw) →
      extract_custom (GType.Mutable cat) = none) := by
  refine ⟨rfl, rfl, ?_, ?_⟩
  · intro s
    cases cat with
    | Scalar p => simp [extract_custom]
    | Pointer inner => simp [extract_custom]
    | Nullable inner => simp [extract_custom]
    | Unrecognized kw => cases kw with | mk raw => simp [extract_custom]
    | Malformed => simp [extract_custom]
  · intro hne
    cases cat with
    | Unrecognized kw => exact absurd rfl (hne kw)
    | Scalar p => rfl
    | Pointer inner => rfl
    | Nullable inner => rfl
    | Malformed => rfl

/-- Witness for C7: a recognized scalar category yields `none`. -/
theorem extract_custom_uniform_witness :
    extract_custom (GType.Mutable (GTypeCategory.Scalar GPrimitive.bool)) =
      none :=
  (extract_custom_uniform _).2.2.2 (fun _ h => GTypeCategory.noConfusion h)

/-- Claim C8: a completed scan lists the struct, enum, and function
records in exactly input scan order — each collection equals its initial
value followed by the per-item records produced in the order the items
occur, with no reordering, merging, or deduplication. -/
theorem order_preservation (file_name : String)
    (items : List GHeaderFileItem) (fi fi' : FileInfo)
    (h : processItems file_name fi items = some fi') :
    fi'.structs = fi.structs ++ items.filterMap structRecordOf ∧
    fi'.enums = fi.enums ++ items.filterMap enumRecordOf ∧
    fi'.functions =
      fi.functions ++ items.filterMap (methodRecordOf file_name) :=
  (processItems_some file_name items fi fi' h).2.2.2

/-- Witness for C8: the sample scan — whose input holds a forward
indicator and a later full definition of the same struct — yields exactly
the per-item records in scan order (two separate struct entries). -/
theorem order_preservation_witness :
    wSampleResult.structs = (FileInfo.init "wallet").structs ++
      wSampleItems.filterMap structRecordOf ∧
    wSampleResult.enums = (FileInfo.init "wallet").enums ++
      wSampleItems.filterMap enumRecordOf ∧
    wSampleResult.functions = (FileInfo.init "wallet").functions ++
      wSampleItems.filterMap (methodRecordOf "wallet") :=
  order_preservation "wallet" wSampleItems (FileInfo.init "wallet")
    wSampleResult (by decide)

/-- Claim C9: extraction is a deterministic function of its input — two
runs of `processHeader` on the same path and declaration sequence agree on
the entire resulting manifest. -/
theorem extraction_deterministic (path : String)
    (items : List GHeaderFileItem) (r₁ r₂ : Option FileInfo)
    (h₁ : processHeader path items = r₁)
    (h₂ : processHeader path items = r₂) : r₁ = r₂ := by
  rw [← h₁, ← h₂]

/-- Witness for C9: two runs on the sample header agree. -/
theorem extraction_deterministic_witness :
    processHeader "include/wallet.h" wSampleItems =
      processHeader "include/wallet.h" wSampleItems :=
  extraction_deterministic "include/wallet.h" wSampleItems _ _ rfl rfl

/-- Claim C10: every manifest a scan produces has empty `imports` and
empty `properties`: no branch of the dispatch appends to either, so both
keep their initial empty value. -/
theorem no_imports_no_properties (path : String)
    (items : List GHeaderFileItem) (fi : FileInfo)
    (h : processHeader path items = some fi) :
    fi.imports = [] ∧ fi.properties = [] := by
  unfold processHeader at h
  cases hfn : fileNameOfPath path with
  | none =>
      rw [hfn] at h
      exact Option.noConfusion h
  | some fn =>
      rw [hfn] at h
      have H := processItems_some fn items (FileInfo.init fn) fi h
      exact ⟨by rw [H.2.1]; rfl, by rw [H.2.2.1]; rfl⟩

/-- Witness for C10: the sample manifest has empty `imports` and
`properties`. -/
theorem no_imports_no_properties_witness :
    wSampleResult.imports = [] ∧ wSampleResult.properties = [] :=
  no_imports_no_properties "include/wallet.h" wSampleItems wSampleResult
    (by decide)

end Manifest
